import Mathlib

/-!
Shallow embedding of the client-side suggestion-lifecycle and metrics logic of
`src/frontend/src/App.jsx` (an operator console for support-ticket triage).

The React component keeps this state:
  tickets, selectedTicket, suggestion, editedReply, loading, and a metrics
  record {suggestionsShown, suggestionsAccepted, tagCounts, responseTimes}.
Event handlers (`handleSuggest`, `handleAcceptUnchanged`, `handleAcceptEdited`,
the ticket `onClick`, and the polling `setInterval` body) mutate it through
`setX` calls.  We model the component state as a structure and each handler as
a pure function from state (plus the outcome of its network calls, which the
browser would supply asynchronously) to state, also returning the list of
backend calls the handler issues.  JavaScript numbers used here are integers
(counts, simulated minutes) except the random draw, modelled as a rational;
`Math.round` is Mathlib's `round` (both are `⌊x + 1/2⌋` on the nonnegative
values that occur).  `x ?? y` on a possibly-absent field is `Option.getD`;
`suggestion.tags || []` is `Option.getD` with default `[]`.
-/

/-- A ticket as served by `GET /tickets`: `{ticket_id, subject, body}`. -/
structure Ticket where
  ticket_id : String
  subject : String
  body : String
deriving DecidableEq

/-- A tag in a suggestion payload: either a bare label or a labeled record
exposing a `tag` field (`(t.tag || t)` at display time). The client stores
tags opaquely and passes them through to the decision payload. -/
inductive Tag where
  | bare (label : String)
  | labeled (tag : String)
deriving DecidableEq

/-- The payload of `POST /suggest`: `{suggestion, explanation, confidence,
tags}`.  `tags` may be absent (the code writes `suggestion.tags || []`). -/
structure Suggestion where
  suggestion : String
  explanation : String
  confidence : ℚ
  tags : Option (List Tag)
deriving DecidableEq

/-- The dashboard metrics state initialised in `useState`:
`{suggestionsShown: 0, suggestionsAccepted: 0, tagCounts: {}, responseTimes: []}`.
`tagCounts` is a JS object `{tag: count}`; JS objects preserve string-key
insertion order, so we model it as an insertion-ordered association list. -/
structure Metrics where
  suggestionsShown : ℕ
  suggestionsAccepted : ℕ
  tagCounts : List (String × ℕ)
  responseTimes : List ℤ
deriving DecidableEq

/-- Body of `GET /metrics` responses: `{suggestions_accepted, tag_counts}`,
either field possibly absent or null (the code guards each with `??`). -/
structure ServerMetrics where
  suggestions_accepted : Option ℕ
  tag_counts : Option (List (String × ℕ))
deriving DecidableEq

/-- The decision record sent by `POST /accept`:
`{ticket_id, action, tags, response_time_min, final_reply}`. -/
structure DecisionPayload where
  ticket_id : String
  action : String
  tags : List Tag
  response_time_min : ℤ
  final_reply : String
deriving DecidableEq

/-- Backend calls a handler can issue. -/
inductive Call where
  | postSuggest (ticket_id : String)
  | postAccept (payload : DecisionPayload)
  | getMetrics (total_shown : ℕ)
deriving DecidableEq

/-- The full component state held in `useState` hooks. -/
structure AppState where
  tickets : List Ticket
  selectedTicket : Option Ticket
  suggestion : Option Suggestion
  editedReply : String
  loading : Bool
  metrics : Metrics
deriving DecidableEq

/-- Ticket-list `onClick`:
`setSelectedTicket(t); setSuggestion(null); setEditedReply("")`. -/
def selectTicketClick (s : AppState) (t : Ticket) : AppState :=
  { s with selectedTicket := some t, suggestion := none, editedReply := "" }

/-- The synchronous prefix of `handleSuggest`, up to the `await`:
`if (!selectedTicket) return;` then
`setLoading(true); setSuggestion(null); setEditedReply("")` and the
`POST /suggest {ticket_id}` is issued for the ticket selected at click time. -/
def handleSuggestStart (s : AppState) : AppState × List Call :=
  match s.selectedTicket with
  | none => (s, [])
  | some t =>
      ({ s with loading := true, suggestion := none, editedReply := "" },
       [Call.postSuggest t.ticket_id])

/-- The continuation of `handleSuggest` run when the `/suggest` request
resolves successfully with `payload` (`res.data || null`):
`setSuggestion(payload); setEditedReply(payload?.suggestion || "");
setMetrics(prev => ({...prev, suggestionsShown: prev.suggestionsShown + 1}))`
and `finally setLoading(false)`.  Note the code applies this to whatever the
current state is when the response arrives — there is no token or
ticket-identity comparison before the `setX` calls. -/
def handleSuggestResolve (s : AppState) (payload : Option Suggestion) : AppState :=
  { s with
      suggestion := payload,
      editedReply := (payload.map Suggestion.suggestion).getD "",
      metrics := { s.metrics with suggestionsShown := s.metrics.suggestionsShown + 1 },
      loading := false }

/-- The continuation of `handleSuggest` when the request fails: the `catch`
only logs and alerts, and `finally setLoading(false)`. -/
def handleSuggestReject (s : AppState) : AppState :=
  { s with loading := false }

/-- The metrics update applied on a successful `GET /metrics` response, used
both by the polling `setInterval` body and by the two accept handlers:
`suggestionsAccepted: Number(d.suggestions_accepted ?? prev.suggestionsAccepted)`
and `tagCounts: d.tag_counts ?? prev.tagCounts`, spread over `prev` (so
`suggestionsShown` and `responseTimes` are carried over).  The polling site
adds a final `?? 0`, unreachable because `prev.suggestionsAccepted` is always
a number. -/
def applyServerMetrics (m : Metrics) (d : ServerMetrics) : Metrics :=
  { m with
      suggestionsAccepted := d.suggestions_accepted.getD m.suggestionsAccepted,
      tagCounts := d.tag_counts.getD m.tagCounts }

/-- One firing of the polling `setInterval` body: on a successful
`GET /metrics` response `d` it applies `applyServerMetrics`; on failure the
`catch` is empty (`// silent`) and the state is untouched. -/
def pollTick (m : Metrics) (resp : Option ServerMetrics) : Metrics :=
  match resp with
  | none => m
  | some d => applyServerMetrics m d

/-- `Math.round(5 + Math.random() * 55)` for a draw `q` of `Math.random()`. -/
def simulatedMinutes (q : ℚ) : ℤ :=
  round (5 + q * 55)

/-- Outcome of the network calls inside an accept handler: the
`POST /accept` fails; or it succeeds and the follow-up `GET /metrics` fails;
or both succeed, the latter with body `d`. -/
inductive AcceptOutcome where
  | sendFail
  | metricsFail
  | ok (d : ServerMetrics)
deriving DecidableEq

/-- `handleAcceptUnchanged`, parameterised by the `Math.random()` draw `q` and
the network outcome.  Guard: `if (!suggestion || !selectedTicket) return;`.
It builds the payload with `action: "accepted"`, `tags: suggestion.tags || []`,
`response_time_min: simulatedResponseMinutes`, `final_reply:
suggestion.suggestion`, and `await`s `POST /accept`.  Only after that send
succeeds does it append the same `simulatedResponseMinutes` to
`responseTimes`, then `await`s `GET /metrics` and applies the server fields;
finally `setSuggestion(null); setEditedReply("")`.  Any thrown error lands in
the `catch`, which only logs and alerts — state updates already made stand,
later ones are skipped. -/
def handleAcceptUnchanged (s : AppState) (q : ℚ) (out : AcceptOutcome) :
    AppState × List Call :=
  match s.suggestion, s.selectedTicket with
  | some sug, some t =>
      let v := simulatedMinutes q
      let payload : DecisionPayload :=
        { ticket_id := t.ticket_id, action := "accepted", tags := sug.tags.getD [],
          response_time_min := v, final_reply := sug.suggestion }
      match out with
      | AcceptOutcome.sendFail => (s, [Call.postAccept payload])
      | AcceptOutcome.metricsFail =>
          ({ s with metrics :=
              { s.metrics with responseTimes := s.metrics.responseTimes ++ [v] } },
           [Call.postAccept payload, Call.getMetrics s.metrics.suggestionsShown])
      | AcceptOutcome.ok d =>
          let m1 := { s.metrics with responseTimes := s.metrics.responseTimes ++ [v] }
          ({ s with metrics := applyServerMetrics m1 d,
                    suggestion := none, editedReply := "" },
           [Call.postAccept payload, Call.getMetrics s.metrics.suggestionsShown])
  | _, _ => (s, [])

/-- `handleAcceptEdited`: identical to `handleAcceptUnchanged` except
`action: "edited"` and `final_reply: editedReply`. -/
def handleAcceptEdited (s : AppState) (q : ℚ) (out : AcceptOutcome) :
    AppState × List Call :=
  match s.suggestion, s.selectedTicket with
  | some sug, some t =>
      let v := simulatedMinutes q
      let payload : DecisionPayload :=
        { ticket_id := t.ticket_id, action := "edited", tags := sug.tags.getD [],
          response_time_min := v, final_reply := s.editedReply }
      match out with
      | AcceptOutcome.sendFail => (s, [Call.postAccept payload])
      | AcceptOutcome.metricsFail =>
          ({ s with metrics :=
              { s.metrics with responseTimes := s.metrics.responseTimes ++ [v] } },
           [Call.postAccept payload, Call.getMetrics s.metrics.suggestionsShown])
      | AcceptOutcome.ok d =>
          let m1 := { s.metrics with responseTimes := s.metrics.responseTimes ++ [v] }
          ({ s with metrics := applyServerMetrics m1 d,
                    suggestion := none, editedReply := "" },
           [Call.postAccept payload, Call.getMetrics s.metrics.suggestionsShown])
  | _, _ => (s, [])

/-- `acceptanceRate`:
`suggestionsShown === 0 ? 0 : Math.round((accepted / shown) * 100)`. -/
def acceptanceRate (m : Metrics) : ℤ :=
  if m.suggestionsShown = 0 then 0
  else round (((m.suggestionsAccepted : ℚ) / (m.suggestionsShown : ℚ)) * 100)

/-- The comparator of the `topTags` sort, `(a, b) => b[1] - a[1]`: entry `a`
may stay before `b` exactly when `b`'s count is at most `a`'s. -/
def tagGE (a b : String × ℕ) : Prop := b.2 ≤ a.2

instance : DecidableRel tagGE := fun a b => inferInstanceAs (Decidable (b.2 ≤ a.2))

instance : IsTotal (String × ℕ) tagGE := ⟨fun a b => le_total b.2 a.2⟩

instance : IsTrans (String × ℕ) tagGE := ⟨fun _ _ _ h1 h2 => le_trans h2 h1⟩

/-- `Object.entries(tagCounts).sort((a,b) => b[1] - a[1])`: a stable sort
(guaranteed by the JS spec) of the insertion-ordered entries, descending by
count.  Embedded as insertion sort, which is stable for `tagGE`. -/
def sortTagEntries (tc : List (String × ℕ)) : List (String × ℕ) :=
  tc.insertionSort tagGE

/-- The tag-name prefix of the sorted entries: `.slice(0, n).map(([tag, _]) => tag)`.
The dashboard instantiates `n = 5` and then formats each entry for display;
the ordering logic is this function. -/
def deriveTopTags (tc : List (String × ℕ)) (n : ℕ) : List String :=
  ((sortTagEntries tc).take n).map Prod.fst

/-! Concrete fixtures used by counterexamples and witnesses. -/

/-- A first ticket fixture. -/
def ticketT1 : Ticket := { ticket_id := "T1", subject := "s1", body := "b1" }

/-- A second, distinct ticket fixture. -/
def ticketT2 : Ticket := { ticket_id := "T2", subject := "s2", body := "b2" }

/-- A suggestion payload fixture (as returned by `/suggest` for `ticketT1`). -/
def staleSuggestion : Suggestion :=
  { suggestion := "reply for T1", explanation := "expl", confidence := 1,
    tags := some [Tag.bare "billing"] }

/-- Startup state with `ticketT1` selected and no suggestion yet. -/
def initialState : AppState :=
  { tickets := [ticketT1, ticketT2], selectedTicket := some ticketT1,
    suggestion := none, editedReply := "", loading := false,
    metrics := { suggestionsShown := 0, suggestionsAccepted := 0,
                 tagCounts := [], responseTimes := [] } }

/-- A `Ready` state: `ticketT1` selected, a live suggestion, draft initialised. -/
def readyState : AppState :=
  { tickets := [ticketT1], selectedTicket := some ticketT1,
    suggestion := some staleSuggestion, editedReply := "reply for T1", loading := false,
    metrics := { suggestionsShown := 1, suggestionsAccepted := 0,
                 tagCounts := [], responseTimes := [] } }

/-- A state with no ticket selected and no live suggestion. -/
def idleState : AppState :=
  { tickets := [ticketT1], selectedTicket := none,
    suggestion := none, editedReply := "", loading := false,
    metrics := { suggestionsShown := 0, suggestionsAccepted := 0,
                 tagCounts := [], responseTimes := [] } }

/-- C1: the code has no stale-response guard.  Executing the trace
`select T1 → click Suggest (request in flight) → select T2 → the T1 response
arrives` leaves the session bound to `ticketT2` yet with the Suggestion and
Draft populated from the stale T1 response, contradicting the claim that a
stale response never overwrites state for a newer selection. -/
theorem stale_response_populates_new_selection :
    (handleSuggestResolve
        (selectTicketClick (handleSuggestStart initialState).1 ticketT2)
        (some staleSuggestion)).selectedTicket = some ticketT2 ∧
    (handleSuggestResolve
        (selectTicketClick (handleSuggestStart initialState).1 ticketT2)
        (some staleSuggestion)).suggestion = some staleSuggestion ∧
    (handleSuggestResolve
        (selectTicketClick (handleSuggestStart initialState).1 ticketT2)
        (some staleSuggestion)).editedReply = staleSuggestion.suggestion :=
  ⟨rfl, rfl, rfl⟩

/-- C2 counterexample: from a `Ready` state, a `finalize` whose decision send
fails leaves the state completely unchanged — the Suggestion is still live, so
the session did not transition to `Idle`, refuting "transitions to Idle
regardless of whether the decision send succeeds or fails". -/
theorem finalize_send_failure_stays_ready_cex :
    readyState.suggestion ≠ none ∧ readyState.selectedTicket ≠ none ∧
    (handleAcceptUnchanged readyState 0 AcceptOutcome.sendFail).1 = readyState ∧
    ((handleAcceptUnchanged readyState 0 AcceptOutcome.sendFail).1).suggestion ≠ none :=
  ⟨fun h => Option.noConfusion h, fun h => Option.noConfusion h, rfl,
    fun h => Option.noConfusion h⟩

/-- C2 amended: a `finalize` of either kind from `Ready` reaches `Idle`
(Suggestion discarded, Draft cleared) when its network calls succeed; when the
decision send fails the state is unchanged — the session stays `Ready` and the
suggestion is re-armed; when the send succeeds but the follow-up metrics fetch
fails, the suggestion likewise stays live. -/
theorem finalize_idle_only_on_success (s : AppState) (q : ℚ) (d : ServerMetrics)
    (sug : Suggestion) (t : Ticket)
    (hs : s.suggestion = some sug) (ht : s.selectedTicket = some t) :
    (((handleAcceptUnchanged s q (AcceptOutcome.ok d)).1).suggestion = none ∧
      ((handleAcceptUnchanged s q (AcceptOutcome.ok d)).1).editedReply = "" ∧
      (handleAcceptUnchanged s q AcceptOutcome.sendFail).1 = s ∧
      ((handleAcceptUnchanged s q AcceptOutcome.metricsFail).1).suggestion = some sug) ∧
    (((handleAcceptEdited s q (AcceptOutcome.ok d)).1).suggestion = none ∧
      ((handleAcceptEdited s q (AcceptOutcome.ok d)).1).editedReply = "" ∧
      (handleAcceptEdited s q AcceptOutcome.sendFail).1 = s ∧
      ((handleAcceptEdited s q AcceptOutcome.metricsFail).1).suggestion = some sug) := by
  simp [handleAcceptUnchanged, handleAcceptEdited, hs, ht]

/-- C2 witness: the amended theorem applied to the concrete `Ready` fixture. -/
theorem finalize_idle_only_on_success_witness :
    (((handleAcceptUnchanged readyState 0
          (AcceptOutcome.ok ⟨some 1, some [("billing", 1)]⟩)).1).suggestion = none ∧
      ((handleAcceptUnchanged readyState 0
          (AcceptOutcome.ok ⟨some 1, some [("billing", 1)]⟩)).1).editedReply = "" ∧
      (handleAcceptUnchanged readyState 0 AcceptOutcome.sendFail).1 = readyState ∧
      ((handleAcceptUnchanged readyState 0
          AcceptOutcome.metricsFail).1).suggestion = some staleSuggestion) ∧
    (((handleAcceptEdited readyState 0
          (AcceptOutcome.ok ⟨some 1, some [("billing", 1)]⟩)).1).suggestion = none ∧
      ((handleAcceptEdited readyState 0
          (AcceptOutcome.ok ⟨some 1, some [("billing", 1)]⟩)).1).editedReply = "" ∧
      (handleAcceptEdited readyState 0 AcceptOutcome.sendFail).1 = readyState ∧
      ((handleAcceptEdited readyState 0
          AcceptOutcome.metricsFail).1).suggestion = some staleSuggestion) :=
  finalize_idle_only_on_success readyState 0 ⟨some 1, some [("billing", 1)]⟩
    staleSuggestion ticketT1 rfl rfl

/-- C3: if the decision send fails, the whole metrics record — in particular
the `responseTimes` duration list — is unchanged, for either accept handler:
the append only runs after the `await` of `POST /accept` returns. -/
theorem no_duration_append_on_send_failure (s : AppState) (q : ℚ) :
    ((handleAcceptUnchanged s q AcceptOutcome.sendFail).1).metrics = s.metrics ∧
    ((handleAcceptEdited s q AcceptOutcome.sendFail).1).metrics = s.metrics := by
  cases h1 : s.suggestion <;> cases h2 : s.selectedTicket <;>
    simp [handleAcceptUnchanged, handleAcceptEdited, h1, h2]

/-- C4: the decision sent first by each handler carries the suggestion's tags
unchanged, action `accepted` with the suggestion's original reply text for the
unchanged kind, and action `edited` with the current draft text for the edited
kind — for every network outcome. -/
theorem decision_payload_fields (s : AppState) (q : ℚ) (out : AcceptOutcome)
    (sug : Suggestion) (t : Ticket) (ts : List Tag)
    (hs : s.suggestion = some sug) (ht : s.selectedTicket = some t)
    (htags : sug.tags = some ts) :
    (handleAcceptUnchanged s q out).2.head? = some (Call.postAccept
      { ticket_id := t.ticket_id, action := "accepted", tags := ts,
        response_time_min := simulatedMinutes q, final_reply := sug.suggestion }) ∧
    (handleAcceptEdited s q out).2.head? = some (Call.postAccept
      { ticket_id := t.ticket_id, action := "edited", tags := ts,
        response_time_min := simulatedMinutes q, final_reply := s.editedReply }) := by
  cases out <;>
    simp [handleAcceptUnchanged, handleAcceptEdited, hs, ht, htags]

/-- C4 witness: the payload theorem applied to the concrete `Ready` fixture. -/
theorem decision_payload_fields_witness :
    (handleAcceptUnchanged readyState 0 AcceptOutcome.sendFail).2.head? =
      some (Call.postAccept
        { ticket_id := ticketT1.ticket_id, action := "accepted",
          tags := [Tag.bare "billing"], response_time_min := simulatedMinutes 0,
          final_reply := staleSuggestion.suggestion }) ∧
    (handleAcceptEdited readyState 0 AcceptOutcome.sendFail).2.head? =
      some (Call.postAccept
        { ticket_id := ticketT1.ticket_id, action := "edited",
          tags := [Tag.bare "billing"], response_time_min := simulatedMinutes 0,
          final_reply := readyState.editedReply }) :=
  decision_payload_fields readyState 0 AcceptOutcome.sendFail staleSuggestion ticketT1
    [Tag.bare "billing"] rfl rfl rfl

/-- C5: `acceptanceRate` is `0` when the shown count is `0`, and otherwise
equals `round (100 * accepted / shown)` (the source's `(accepted / shown) * 100`
is the same rational). -/
theorem acceptanceRate_spec (m : Metrics) :
    (m.suggestionsShown = 0 → acceptanceRate m = 0) ∧
    (m.suggestionsShown ≠ 0 →
      acceptanceRate m =
        round ((100 * (m.suggestionsAccepted : ℚ)) / (m.suggestionsShown : ℚ))) := by
  constructor
  · intro h
    simp [acceptanceRate, h]
  · intro h
    simp only [acceptanceRate, if_neg h]
    congr 1
    ring

/-- C5 witness: accepted `3` of shown `10` gives `30`, and shown `0` gives `0`
for a nonzero accepted count. -/
theorem acceptanceRate_spec_witness :
    acceptanceRate ⟨10, 3, [], []⟩ = 30 ∧ acceptanceRate ⟨0, 7, [], []⟩ = 0 := by
  constructor
  · have h := (acceptanceRate_spec ⟨10, 3, [], []⟩).2 (by decide)
    rw [h]
    norm_num [round_eq]
  · exact (acceptanceRate_spec ⟨0, 7, [], []⟩).1 rfl

/-- C6: the tag-entry sort is a permutation of the insertion-ordered mapping,
sorted descending by count, and stable (an in-order pair already satisfying
the comparator stays in order, so equal counts keep first-encountered order);
`deriveTopTags` takes the first `n` names of it, and on
`billing ↦ 5, bug ↦ 5, ui ↦ 2` the top two are `billing, bug` in that order. -/
theorem topTags_sorted_stable (tc : List (String × ℕ)) (n : ℕ) :
    List.Perm (sortTagEntries tc) tc ∧
    (sortTagEntries tc).Sorted tagGE ∧
    (∀ a b : String × ℕ, tagGE a b →
      List.Sublist [a, b] tc → List.Sublist [a, b] (sortTagEntries tc)) ∧
    deriveTopTags tc n = ((sortTagEntries tc).take n).map Prod.fst ∧
    deriveTopTags [("billing", 5), ("bug", 5), ("ui", 2)] 2 = ["billing", "bug"] :=
  ⟨List.perm_insertionSort tagGE tc, List.sorted_insertionSort tagGE tc,
    fun _ _ hab h => List.pair_sublist_insertionSort hab h, rfl, by decide⟩

/-- C6 witness: the stability clause applied to the tied pair of the Scenario E
mapping, and the concrete top-two result. -/
theorem topTags_sorted_stable_witness :
    List.Sublist [("billing", 5), ("bug", 5)]
      (sortTagEntries [("billing", 5), ("bug", 5), ("ui", 2)]) ∧
    deriveTopTags [("billing", 5), ("bug", 5), ("ui", 2)] 2 = ["billing", "bug"] :=
  ⟨(topTags_sorted_stable [("billing", 5), ("bug", 5), ("ui", 2)] 2).2.2.1
      ("billing", 5) ("bug", 5) (by decide) (by decide),
    (topTags_sorted_stable [("billing", 5), ("bug", 5), ("ui", 2)] 2).2.2.2.2⟩

/-- C7: for a `Math.random()` draw in `[0, 1)` the simulated duration is an
integer in `[5, 60]`; it is drawn once per finalize and the value appended to
`responseTimes` is the very value carried by the decision payload's
`response_time_min` field, for both handlers. -/
theorem simulated_duration_once_in_range (s : AppState) (q : ℚ) (d : ServerMetrics)
    (sug : Suggestion) (t : Ticket)
    (hs : s.suggestion = some sug) (ht : s.selectedTicket = some t)
    (h0 : 0 ≤ q) (h1 : q < 1) :
    (5 ≤ simulatedMinutes q ∧ simulatedMinutes q ≤ 60) ∧
    ((handleAcceptUnchanged s q (AcceptOutcome.ok d)).1).metrics.responseTimes
        = s.metrics.responseTimes ++ [simulatedMinutes q] ∧
    ((handleAcceptEdited s q (AcceptOutcome.ok d)).1).metrics.responseTimes
        = s.metrics.responseTimes ++ [simulatedMinutes q] ∧
    (∃ p : DecisionPayload,
      (handleAcceptUnchanged s q (AcceptOutcome.ok d)).2.head? = some (Call.postAccept p) ∧
      p.response_time_min = simulatedMinutes q) ∧
    (∃ p : DecisionPayload,
      (handleAcceptEdited s q (AcceptOutcome.ok d)).2.head? = some (Call.postAccept p) ∧
      p.response_time_min = simulatedMinutes q) := by
  have hq0 : (0 : ℚ) ≤ q * 55 := by positivity
  have hq1 : q * 55 < 55 := by nlinarith
  refine ⟨⟨?_, ?_⟩, ?_, ?_, ?_, ?_⟩
  · rw [simulatedMinutes, round_eq, Int.le_floor]
    push_cast
    linarith
  · rw [simulatedMinutes, round_eq]
    have hlt := Int.floor_lt.mpr (by push_cast; linarith : (5 + q * 55 + 1 / 2 : ℚ) < (61 : ℤ))
    omega
  · simp [handleAcceptUnchanged, hs, ht, applyServerMetrics]
  · simp [handleAcceptEdited, hs, ht, applyServerMetrics]
  · exact ⟨⟨t.ticket_id, "accepted", sug.tags.getD [], simulatedMinutes q, sug.suggestion⟩,
      by simp [handleAcceptUnchanged, hs, ht], rfl⟩
  · exact ⟨⟨t.ticket_id, "edited", sug.tags.getD [], simulatedMinutes q, s.editedReply⟩,
      by simp [handleAcceptEdited, hs, ht], rfl⟩

/-- C7 witness: the duration theorem applied to the `Ready` fixture with the
draw `0`. -/
theorem simulated_duration_once_in_range_witness :
    (5 ≤ simulatedMinutes 0 ∧ simulatedMinutes 0 ≤ 60) ∧
    ((handleAcceptUnchanged readyState 0
        (AcceptOutcome.ok ⟨none, none⟩)).1).metrics.responseTimes
      = readyState.metrics.responseTimes ++ [simulatedMinutes 0] ∧
    ((handleAcceptEdited readyState 0
        (AcceptOutcome.ok ⟨none, none⟩)).1).metrics.responseTimes
      = readyState.metrics.responseTimes ++ [simulatedMinutes 0] ∧
    (∃ p : DecisionPayload,
      (handleAcceptUnchanged readyState 0
        (AcceptOutcome.ok ⟨none, none⟩)).2.head? = some (Call.postAccept p) ∧
      p.response_time_min = simulatedMinutes 0) ∧
    (∃ p : DecisionPayload,
      (handleAcceptEdited readyState 0
        (AcceptOutcome.ok ⟨none, none⟩)).2.head? = some (Call.postAccept p) ∧
      p.response_time_min = simulatedMinutes 0) :=
  simulated_duration_once_in_range readyState 0 ⟨none, none⟩ staleSuggestion ticketT1
    rfl rfl (le_refl 0) zero_lt_one

/-- C8: a failed poll leaves the metrics untouched; a successful poll whose
response carries both fields replaces the accepted count and the tag mapping
wholesale while the shown count and the duration list are unchanged. -/
theorem poll_refresh_replace_and_frame (m : Metrics) (d : ServerMetrics) (a : ℕ)
    (tc : List (String × ℕ))
    (ha : d.suggestions_accepted = some a) (ht : d.tag_counts = some tc) :
    pollTick m none = m ∧
    (pollTick m (some d)).suggestionsAccepted = a ∧
    (pollTick m (some d)).tagCounts = tc ∧
    (pollTick m (some d)).suggestionsShown = m.suggestionsShown ∧
    (pollTick m (some d)).responseTimes = m.responseTimes := by
  simp [pollTick, applyServerMetrics, ha, ht]

/-- C8 witness: the refresh theorem applied to a concrete snapshot and
response. -/
theorem poll_refresh_replace_and_frame_witness :
    pollTick ⟨2, 0, [], [7]⟩ none = ⟨2, 0, [], [7]⟩ ∧
    (pollTick ⟨2, 0, [], [7]⟩ (some ⟨some 1, some [("billing", 1)]⟩)).suggestionsAccepted = 1 ∧
    (pollTick ⟨2, 0, [], [7]⟩ (some ⟨some 1, some [("billing", 1)]⟩)).tagCounts =
      [("billing", 1)] ∧
    (pollTick ⟨2, 0, [], [7]⟩ (some ⟨some 1, some [("billing", 1)]⟩)).suggestionsShown =
      (⟨2, 0, [], [7]⟩ : Metrics).suggestionsShown ∧
    (pollTick ⟨2, 0, [], [7]⟩ (some ⟨some 1, some [("billing", 1)]⟩)).responseTimes =
      (⟨2, 0, [], [7]⟩ : Metrics).responseTimes :=
  poll_refresh_replace_and_frame ⟨2, 0, [], [7]⟩ ⟨some 1, some [("billing", 1)]⟩ 1
    [("billing", 1)] rfl rfl

/-- C9: with no ticket selected, `handleSuggest` returns before any effect;
with no live suggestion or no ticket selected, both accept handlers return
before any effect — state unchanged and no backend call issued. -/
theorem guard_noop (s : AppState) (q : ℚ) (out : AcceptOutcome) :
    (s.selectedTicket = none → handleSuggestStart s = (s, [])) ∧
    (s.suggestion = none →
      handleAcceptUnchanged s q out = (s, []) ∧ handleAcceptEdited s q out = (s, [])) ∧
    (s.selectedTicket = none →
      handleAcceptUnchanged s q out = (s, []) ∧ handleAcceptEdited s q out = (s, [])) := by
  refine ⟨fun h => ?_, fun h => ?_, fun h => ?_⟩
  · simp [handleSuggestStart, h]
  · cases h2 : s.selectedTicket <;> simp [handleAcceptUnchanged, handleAcceptEdited, h, h2]
  · cases h1 : s.suggestion <;> simp [handleAcceptUnchanged, handleAcceptEdited, h, h1]

/-- C9 witness: the guard theorem applied to the no-selection fixture. -/
theorem guard_noop_witness :
    handleSuggestStart idleState = (idleState, []) ∧
    handleAcceptUnchanged idleState 0 AcceptOutcome.sendFail = (idleState, []) ∧
    handleAcceptEdited idleState 0 AcceptOutcome.sendFail = (idleState, []) :=
  ⟨(guard_noop idleState 0 AcceptOutcome.sendFail).1 rfl,
    ((guard_noop idleState 0 AcceptOutcome.sendFail).2.1 rfl).1,
    ((guard_noop idleState 0 AcceptOutcome.sendFail).2.1 rfl).2⟩

/-- C10: when a successful metrics response omits a field (`null` or absent),
the update keeps the previous local value of that field — the accepted count
when `suggestions_accepted` is missing, the tag mapping when `tag_counts` is
missing.  Both the polling site and the accept handlers apply this update. -/
theorem refresh_retains_missing_fields (m : Metrics) (d : ServerMetrics) :
    (d.suggestions_accepted = none →
      (applyServerMetrics m d).suggestionsAccepted = m.suggestionsAccepted) ∧
    (d.tag_counts = none → (applyServerMetrics m d).tagCounts = m.tagCounts) := by
  constructor <;> intro h <;> simp [applyServerMetrics, h]

/-- C10 witness: the retention theorem applied to an all-missing response. -/
theorem refresh_retains_missing_fields_witness :
    (applyServerMetrics ⟨2, 5, [("ui", 1)], [7]⟩ ⟨none, none⟩).suggestionsAccepted = 5 ∧
    (applyServerMetrics ⟨2, 5, [("ui", 1)], [7]⟩ ⟨none, none⟩).tagCounts = [("ui", 1)] :=
  ⟨(refresh_retains_missing_fields ⟨2, 5, [("ui", 1)], [7]⟩ ⟨none, none⟩).1 rfl,
    (refresh_retains_missing_fields ⟨2, 5, [("ui", 1)], [7]⟩ ⟨none, none⟩).2 rfl⟩
